import Mathlib

/-!
Verification of the text-snippet-answer-generator frontend core against its
specification.  The TypeScript sources (App.tsx, api.ts, ConfidenceBadge.tsx,
EditSnippetModal.tsx, QuestionInput.tsx) are shallowly embedded: React state is
an explicit `AppState` record, event handlers become state-transition functions
that also return the list of HTTP requests they issue, and JavaScript numbers
(all confidence values lie in small ranges where IEEE doubles behave exactly
on the dyadic inputs we evaluate) are modelled as rationals.
-/

namespace SnippetApp

/-- JavaScript `Math.round`: round half towards positive infinity. -/
def jsRound (x : ℚ) : ℤ := ⌊x + 1/2⌋

/-- The three visual confidence tiers of the UI badge. -/
inductive Level where
| high
| medium
| low
deriving DecidableEq, Repr

/-- What `ConfidenceBadge` renders: the integer percentage and the tier. -/
structure ConfidenceBadgeView where
pct : ℤ
level : Level
deriving DecidableEq, Repr

/-- Embedding of `ConfidenceBadge` (ConfidenceBadge.tsx): `pct` is
`Math.round(confidence * 100)` and the tier is chosen from `pct`. -/
def ConfidenceBadge (confidence : ℚ) : ConfidenceBadgeView :=
let pct := jsRound (confidence * 100)
let level := if pct ≥ 70 then Level.high else if pct ≥ 40 then Level.medium else Level.low
⟨pct, level⟩

/-- The spec's description of the UI-facing percentage: a pure
`round(confidence*100)` presentation concern. -/
def specUiPercentage (confidence : ℚ) : ℤ := round (confidence * 100)

theorem jsRound_le_iff (n : ℤ) (x : ℚ) : n ≤ jsRound x ↔ (n : ℚ) ≤ x + 1/2 :=
Int.le_floor

/-- C2 counterexample: at confidence 89/128 = 0.6953125 (an exactly
representable IEEE double below 0.70) the badge shows the high tier, refuting
the claim that high appears exactly when confidence ≥ 0.70. -/
theorem confidenceBadge_high_below_070 :
    (ConfidenceBadge (89/128)).level = Level.high ∧ ¬ ((70 : ℚ)/100 ≤ 89/128) := by
have hpct : jsRound ((89 : ℚ)/128 * 100) = 70 := by
  rw [jsRound, Int.floor_eq_iff]
  norm_num
constructor
· simp [ConfidenceBadge, hpct]
· norm_num

/-- C2 (amended): the tiers are decided on the rounded percentage, so the real
thresholds sit half a percentage point lower: high exactly when
confidence ≥ 0.695, medium exactly when 0.395 ≤ confidence < 0.695, and low
exactly when confidence < 0.395. -/
theorem confidenceBadge_tier_boundaries (c : ℚ) :
    ((ConfidenceBadge c).level = Level.high ↔ 139/200 ≤ c) ∧
    ((ConfidenceBadge c).level = Level.medium ↔ 79/200 ≤ c ∧ c < 139/200) ∧
    ((ConfidenceBadge c).level = Level.low ↔ c < 79/200) := by
have hhigh : (70 : ℤ) ≤ jsRound (c * 100) ↔ (139 : ℚ)/200 ≤ c := by
  rw [jsRound_le_iff]
  push_cast
  constructor <;> intro h <;> linarith
have hmed : (40 : ℤ) ≤ jsRound (c * 100) ↔ (79 : ℚ)/200 ≤ c := by
  rw [jsRound_le_iff]
  push_cast
  constructor <;> intro h <;> linarith
simp only [ConfidenceBadge, ge_iff_le]
split_ifs with h70 h40
· refine ⟨by simp [hhigh.mp h70], ?_, ?_⟩
  · simp only [reduceCtorEq, false_iff, not_and, not_lt]
    intro _
    exact hhigh.mp h70
  · simp only [reduceCtorEq, false_iff, not_lt]
    have := hhigh.mp h70
    linarith
· refine ⟨?_, ?_, ?_⟩
  · simp only [reduceCtorEq, false_iff, not_le]
    by_contra hc
    push_neg at hc
    exact h70 (hhigh.mpr hc)
  · simp only [true_iff]
    refine ⟨hmed.mp h40, ?_⟩
    by_contra hc
    push_neg at hc
    exact h70 (hhigh.mpr hc)
  · simp only [reduceCtorEq, false_iff, not_lt]
    exact hmed.mp h40
· refine ⟨?_, ?_, ?_⟩
  · simp only [reduceCtorEq, false_iff, not_le]
    by_contra hc
    push_neg at hc
    exact h70 (hhigh.mpr hc)
  · simp only [reduceCtorEq, false_iff, not_and, not_lt]
    intro hc
    exact absurd (hmed.mpr hc) h40
  · simp only [true_iff]
    by_contra hc
    push_neg at hc
    exact h40 (hmed.mpr hc)

/-- C3: the percentage the badge displays is exactly `round(confidence*100)`,
the presentation mapping named by the spec, with no other transformation. -/
theorem confidenceBadge_pct_is_round (c : ℚ) :
    (ConfidenceBadge c).pct = specUiPercentage c := by
simp [ConfidenceBadge, jsRound, specUiPercentage, round_eq]

/-- A retrieved source as delivered to the UI (types.ts `SourceItem`; the
fields the ask/refine flow reads). -/
structure SourceItem where
id : String
text : String
title : Option String
snippet_confidence : ℚ
deriving DecidableEq, Repr

/-- types.ts `AskResponse`. -/
structure AskResponse where
answer : String
sources : List SourceItem
answer_confidence : ℚ
deriving DecidableEq, Repr

/-- types.ts `RefineResponse`: the fields `handleRefine` consumes. -/
structure RefineResponse where
answer : String
answer_confidence : ℚ
deriving DecidableEq, Repr

/-- AskScopeSelector.tsx: `type ScopeMode = "all" | "groups" | "snippets"`. -/
inductive ScopeMode where
| all
| groups
| snippets
deriving DecidableEq, Repr

/-- The App.tsx state hooks that the ask/refine handlers read or write. -/
structure AppState where
question : String
loading : Bool
error : Option String
result : Option AskResponse
scopeMode : ScopeMode
selectedGroupNames : List String
selectedSnippetIds : List String
answerCloseness : ℚ
useHyde : Bool
useKeywordRerank : Bool
refining : Bool
contextSourceIds : List String
originalQuestion : String
questionLanguage : String
deriving DecidableEq, Repr

/-- The initial values of the App.tsx `useState` hooks on a fresh mount. -/
def initialAppState : AppState where
question := ""
loading := false
error := none
result := none
scopeMode := ScopeMode.all
selectedGroupNames := []
selectedSnippetIds := []
answerCloseness := 1/2
useHyde := false
useKeywordRerank := true
refining := false
contextSourceIds := []
originalQuestion := ""
questionLanguage := ""

/-- JavaScript `String.prototype.trim`: strip leading and trailing
whitespace (structural recursion over the character list, so concrete
instances evaluate). -/
def jsTrim (s : String) : String :=
String.mk (((s.data.dropWhile Char.isWhitespace).reverse.dropWhile
  Char.isWhitespace).reverse)

/-- The `options` object `handleAsk` passes to `ask` (api.ts signature);
absent fields are `none` like `undefined`. -/
structure AskOptions where
groupNames : Option (List String) := none
snippetIds : Option (List String) := none
languages : Option (List String) := none
answerCloseness : Option ℚ := none
useHyde : Option Bool := none
useKeywordRerank : Option Bool := none
deriving DecidableEq, Repr

/-- The JSON body `ask` posts to /api/ask (api.ts); an optional field is
serialized exactly when it is `some`. -/
structure AskRequestBody where
question : String
group_names : Option (List String) := none
snippet_ids : Option (List String) := none
languages : Option (List String) := none
answer_closeness : Option ℚ := none
use_hyde : Option Bool := none
use_keyword_rerank : Option Bool := none
deriving DecidableEq, Repr

/-- The options object `handleRefine` passes to `refineAnswer` (api.ts). -/
structure RefineOptions where
originalQuestion : String
originalAnswer : String
refinementPrompt : String
selectedSourceIds : List String
sources : List SourceItem
answerCloseness : ℚ
deriving DecidableEq, Repr

/-- The JSON body `refineAnswer` posts to /api/refine (api.ts). -/
structure RefineRequestBody where
original_question : String
original_answer : String
refinement_prompt : String
selected_source_ids : List String
sources : List SourceItem
answer_closeness : ℚ
deriving DecidableEq, Repr

/-- An HTTP request issued by the app during a handler run. -/
inductive Request where
| ask (body : AskRequestBody)
| refine (body : RefineRequestBody)
deriving DecidableEq, Repr

/-- JavaScript truthiness of `xs?.length` for an optional array. -/
def listTruthy {α : Type} : Option (List α) → Bool
| some l => !l.isEmpty
| none => false

/-- api.ts `ask`: builds the request body, copying each option into its
snake_case field under the source's guards (`options?.xs?.length` for the
three list fields, `!== undefined` for the rest). -/
def askBody (question : String) (options : Option AskOptions) : AskRequestBody :=
let gn := options.bind AskOptions.groupNames
let si := options.bind AskOptions.snippetIds
let ls := options.bind AskOptions.languages
{ question := question
  group_names := if listTruthy gn then gn else none
  snippet_ids := if listTruthy si then si else none
  languages := if listTruthy ls then ls else none
  answer_closeness := options.bind AskOptions.answerCloseness
  use_hyde := options.bind AskOptions.useHyde
  use_keyword_rerank := options.bind AskOptions.useKeywordRerank }

/-- App.tsx `handleAsk`, lines 149-168: the scope variant is chosen by the
first matching guard (`groups` with a non-empty selection, else `snippets`
with a non-empty selection, else neither), then the three tuning values are
always set and the language filter is added when a language is selected. -/
def handleAskOptions (st : AppState) : AskOptions :=
let base : AskOptions :=
  if st.scopeMode = ScopeMode.groups ∧ st.selectedGroupNames ≠ [] then
    { groupNames := some st.selectedGroupNames }
  else if st.scopeMode = ScopeMode.snippets ∧ st.selectedSnippetIds ≠ [] then
    { snippetIds := some st.selectedSnippetIds }
  else {}
{ base with
  answerCloseness := some st.answerCloseness
  useHyde := some st.useHyde
  useKeywordRerank := some st.useKeywordRerank
  languages := if st.questionLanguage ≠ "" then some [st.questionLanguage] else base.languages }

/-- App.tsx `handleAsk` as a state transition.  The network outcome of the
single `ask` call is a parameter; the returned list collects the requests the
handler issued.  A question whose trimmed form is empty returns before any
state update or request. -/
def handleAsk (st : AppState) (outcome : Except String AskResponse) :
    AppState × List Request :=
let q := jsTrim st.question
if q = "" then (st, [])
else
  let body := askBody q (some (handleAskOptions st))
  let st' := { st with
    error := none, result := none, loading := true,
    contextSourceIds := [], originalQuestion := q }
  match outcome with
  | Except.ok data =>
      ({ st' with result := some data, loading := false }, [Request.ask body])
  | Except.error msg =>
      ({ st' with error := some msg, loading := false }, [Request.ask body])

/-- api.ts `refineAnswer`: the posted body is a field-for-field snake_case
copy of the options. -/
def refineAnswerBody (o : RefineOptions) : RefineRequestBody where
original_question := o.originalQuestion
original_answer := o.originalAnswer
refinement_prompt := o.refinementPrompt
selected_source_ids := o.selectedSourceIds
sources := o.sources
answer_closeness := o.answerCloseness

/-- App.tsx `handleRefine` as a state transition: with no current result it
returns immediately; otherwise it issues exactly one refine request and, on
success, replaces the displayed answer and confidence while keeping
`result.sources` (source line: "Keep original sources so user can continue
selecting"). -/
def handleRefine (st : AppState) (refinementPrompt : String)
    (outcome : Except String RefineResponse) : AppState × List Request :=
match st.result with
| none => (st, [])
| some result =>
  let body := refineAnswerBody
    { originalQuestion := st.originalQuestion
      originalAnswer := result.answer
      refinementPrompt := refinementPrompt
      selectedSourceIds := st.contextSourceIds
      sources := result.sources
      answerCloseness := st.answerCloseness }
  match outcome with
  | Except.ok refined =>
      ({ st with
         error := none, refining := false,
         result := some { answer := refined.answer, sources := result.sources,
                          answer_confidence := refined.answer_confidence } },
       [Request.refine body])
  | Except.error msg =>
      ({ st with error := some msg, refining := false }, [Request.refine body])

/-- QuestionInput.tsx line 29: the submit button's `disabled` attribute,
`disabled || loading || !value.trim()`. -/
def questionInputSubmitDisabled (disabled loading : Bool) (value : String) : Bool :=
disabled || loading || (jsTrim value).isEmpty

theorem if_listTruthy_eq {α : Type} (o : Option (List α)) (h : o ≠ some []) :
    (if listTruthy o then o else none) = o := by
match o with
| none => rfl
| some [] => exact absurd rfl h
| some (a :: l) => rfl

theorem handleAskOptions_fields (st : AppState) :
    (handleAskOptions st).groupNames =
      (if st.scopeMode = ScopeMode.groups ∧ st.selectedGroupNames ≠ [] then
        some st.selectedGroupNames else none) ∧
    (handleAskOptions st).snippetIds =
      (if st.scopeMode = ScopeMode.snippets ∧ st.selectedSnippetIds ≠ [] then
        some st.selectedSnippetIds else none) ∧
    (handleAskOptions st).answerCloseness = some st.answerCloseness ∧
    (handleAskOptions st).useHyde = some st.useHyde ∧
    (handleAskOptions st).useKeywordRerank = some st.useKeywordRerank := by
simp only [handleAskOptions]
split_ifs with h1 h2 <;> simp_all

theorem askBody_fields (q : String) (st : AppState) :
    (askBody q (some (handleAskOptions st))).group_names =
      (if st.scopeMode = ScopeMode.groups ∧ st.selectedGroupNames ≠ [] then
        some st.selectedGroupNames else none) ∧
    (askBody q (some (handleAskOptions st))).snippet_ids =
      (if st.scopeMode = ScopeMode.snippets ∧ st.selectedSnippetIds ≠ [] then
        some st.selectedSnippetIds else none) ∧
    (askBody q (some (handleAskOptions st))).answer_closeness = some st.answerCloseness ∧
    (askBody q (some (handleAskOptions st))).use_hyde = some st.useHyde ∧
    (askBody q (some (handleAskOptions st))).use_keyword_rerank = some st.useKeywordRerank := by
obtain ⟨hg, hs, hc, hh, hk⟩ := handleAskOptions_fields st
simp only [askBody, Option.some_bind, hg, hs, hc, hh, hk]
refine ⟨?_, ?_, trivial, trivial, trivial⟩
· apply if_listTruthy_eq
  split_ifs with h
  · simp [h.2]
  · simp
· apply if_listTruthy_eq
  split_ifs with h
  · simp [h.2]
  · simp

theorem handleAsk_requests (st : AppState) (outcome : Except String AskResponse)
    (body : AskRequestBody) (hmem : Request.ask body ∈ (handleAsk st outcome).2) :
    (jsTrim st.question) ≠ "" ∧
    body = askBody (jsTrim st.question) (some (handleAskOptions st)) := by
unfold handleAsk at hmem
by_cases hq : (jsTrim st.question) = ""
· simp [hq] at hmem
· refine ⟨hq, ?_⟩
  cases outcome <;> simp [hq] at hmem <;> exact hmem

/-- C4: every body built by `handleAsk` and serialized by `ask` carries at
most one of `group_names` and `snippet_ids`; in groups mode with a non-empty
selection `group_names` is exactly the selected names, and in snippets mode
with a non-empty selection `snippet_ids` is exactly the selected ids. -/
theorem handleAsk_scope_exclusive (st : AppState) (outcome : Except String AskResponse)
    (body : AskRequestBody) (hmem : Request.ask body ∈ (handleAsk st outcome).2) :
    (body.group_names = none ∨ body.snippet_ids = none) ∧
    (st.scopeMode = ScopeMode.groups → st.selectedGroupNames ≠ [] →
      body.group_names = some st.selectedGroupNames) ∧
    (st.scopeMode = ScopeMode.snippets → st.selectedSnippetIds ≠ [] →
      body.snippet_ids = some st.selectedSnippetIds) := by
obtain ⟨-, rfl⟩ := handleAsk_requests st outcome body hmem
obtain ⟨hg, hs, -, -, -⟩ := askBody_fields (jsTrim st.question) st
refine ⟨?_, ?_, ?_⟩
· rw [hg, hs]
  split_ifs with h1 h2
  · exact absurd h1.1 (by simp [h2.1])
  · exact Or.inr rfl
  · exact Or.inl rfl
  · exact Or.inl rfl
· intro hmode hsel
  rw [hg, if_pos ⟨hmode, hsel⟩]
· intro hmode hsel
  rw [hs, if_pos ⟨hmode, hsel⟩]

/-- C8: in groups mode with nothing selected, or snippets mode with nothing
selected, the body `handleAsk` sends contains neither `group_names` nor
`snippet_ids` — the request silently falls back to the All scope. -/
theorem handleAsk_empty_selection_all_scope (st : AppState)
    (outcome : Except String AskResponse) (body : AskRequestBody)
    (hsel : (st.scopeMode = ScopeMode.groups ∧ st.selectedGroupNames = []) ∨
            (st.scopeMode = ScopeMode.snippets ∧ st.selectedSnippetIds = []))
    (hmem : Request.ask body ∈ (handleAsk st outcome).2) :
    body.group_names = none ∧ body.snippet_ids = none := by
obtain ⟨-, rfl⟩ := handleAsk_requests st outcome body hmem
obtain ⟨hg, hs, -, -, -⟩ := askBody_fields (jsTrim st.question) st
rw [hg, hs]
rcases hsel with ⟨hmode, hempty⟩ | ⟨hmode, hempty⟩ <;>
  constructor <;> (apply if_neg; rintro ⟨h1, h2⟩) <;> simp_all

/-- C6: on a fresh mount `answer_closeness` starts at 0.5, `use_hyde` at
false, `use_keyword_rerank` at true (the interface defaults), and every ask
request body includes the current values of all three. -/
theorem ask_tuning_defaults :
    initialAppState.answerCloseness = 1/2 ∧
    initialAppState.useHyde = false ∧
    initialAppState.useKeywordRerank = true ∧
    ∀ (st : AppState) (outcome : Except String AskResponse) (body : AskRequestBody),
      Request.ask body ∈ (handleAsk st outcome).2 →
      body.answer_closeness = some st.answerCloseness ∧
      body.use_hyde = some st.useHyde ∧
      body.use_keyword_rerank = some st.useKeywordRerank := by
refine ⟨rfl, rfl, rfl, ?_⟩
intro st outcome body hmem
obtain ⟨-, rfl⟩ := handleAsk_requests st outcome body hmem
obtain ⟨-, -, hc, hh, hk⟩ := askBody_fields (jsTrim st.question) st
exact ⟨hc, hh, hk⟩

/-- C9: a question whose trimmed form is empty makes `handleAsk` return with
the state untouched and no request issued, and the QuestionInput submit
button is disabled for any such value. -/
theorem handleAsk_blank_question (st : AppState) (outcome : Except String AskResponse)
    (h : (jsTrim st.question) = "") :
    handleAsk st outcome = (st, []) ∧
    ∀ d l : Bool, questionInputSubmitDisabled d l st.question = true := by
constructor
· unfold handleAsk
  simp [h]
· intro d l
  simp only [questionInputSubmitDisabled, h, Bool.or_eq_true]
  exact Or.inr rfl

/-- C1: a successful refinement keeps the displayed source list identical and
replaces only the answer text and the answer confidence with the refine
response's values. -/
theorem handleRefine_keeps_sources (st : AppState) (refinementPrompt : String)
    (refined : RefineResponse) (result : AskResponse)
    (hres : st.result = some result) :
    ((handleRefine st refinementPrompt (Except.ok refined)).1).result =
      some { answer := refined.answer, sources := result.sources,
             answer_confidence := refined.answer_confidence } := by
unfold handleRefine
rw [hres]

/-- C5: a refinement with a current result issues exactly one request — a
refine whose `sources` is the current result's source list, whose
`selected_source_ids` is the current context selection, and whose
`original_answer` is the displayed answer — and in particular no ask
(retrieval) request. -/
theorem handleRefine_single_refine_request (st : AppState) (refinementPrompt : String)
    (outcome : Except String RefineResponse) (result : AskResponse)
    (hres : st.result = some result) :
    (handleRefine st refinementPrompt outcome).2 =
      [Request.refine { original_question := st.originalQuestion,
                        original_answer := result.answer,
                        refinement_prompt := refinementPrompt,
                        selected_source_ids := st.contextSourceIds,
                        sources := result.sources,
                        answer_closeness := st.answerCloseness }] := by
unfold handleRefine refineAnswerBody
rw [hres]
cases outcome <;> rfl

/-- A concrete retrieved source, for evaluating the theorems. -/
def exampleSource : SourceItem :=
{ id := "s1", text := "Refund window is 30 days.", title := none,
  snippet_confidence := 17/20 }

/-- A concrete ask result holding `exampleSource`. -/
def exampleResult : AskResponse :=
{ answer := "The refund window is 30 days.", sources := [exampleSource],
  answer_confidence := 17/20 }

/-- A mounted app state that has displayed `exampleResult`. -/
def exampleState : AppState :=
{ initialAppState with result := some exampleResult, originalQuestion := "q" }

/-- An app state asking in groups scope with one selected group. -/
def exampleGroupsState : AppState :=
{ initialAppState with
  question := "q", scopeMode := ScopeMode.groups,
  selectedGroupNames := ["Policies"] }

/-- An app state in groups scope with an empty group selection. -/
def exampleEmptyGroupsState : AppState :=
{ initialAppState with question := "q", scopeMode := ScopeMode.groups }

theorem handleRefine_keeps_sources_witness :
    ((handleRefine exampleState "make it shorter"
        (Except.ok { answer := "Refunds: 30 days.", answer_confidence := 3/5 })).1).result =
      some { answer := "Refunds: 30 days.", sources := exampleResult.sources,
             answer_confidence := 3/5 } :=
handleRefine_keeps_sources exampleState "make it shorter"
  { answer := "Refunds: 30 days.", answer_confidence := 3/5 } exampleResult rfl

theorem handleRefine_single_refine_request_witness :
    (handleRefine exampleState "make it shorter" (Except.error "boom")).2 =
      [Request.refine { original_question := exampleState.originalQuestion,
                        original_answer := exampleResult.answer,
                        refinement_prompt := "make it shorter",
                        selected_source_ids := exampleState.contextSourceIds,
                        sources := exampleResult.sources,
                        answer_closeness := exampleState.answerCloseness }] :=
handleRefine_single_refine_request exampleState "make it shorter"
  (Except.error "boom") exampleResult rfl

theorem handleAsk_scope_exclusive_witness :
    (askBody (jsTrim exampleGroupsState.question)
        (some (handleAskOptions exampleGroupsState))).group_names =
      some exampleGroupsState.selectedGroupNames :=
(handleAsk_scope_exclusive exampleGroupsState (Except.error "x") _
    (List.Mem.head _)).2.1 rfl (by decide)

theorem handleAsk_empty_selection_all_scope_witness :
    (askBody (jsTrim exampleEmptyGroupsState.question)
        (some (handleAskOptions exampleEmptyGroupsState))).group_names = none ∧
    (askBody (jsTrim exampleEmptyGroupsState.question)
        (some (handleAskOptions exampleEmptyGroupsState))).snippet_ids = none :=
handleAsk_empty_selection_all_scope exampleEmptyGroupsState (Except.error "x") _
  (Or.inl ⟨rfl, rfl⟩) (List.Mem.head _)

theorem ask_tuning_defaults_witness :
    (askBody (jsTrim exampleGroupsState.question)
        (some (handleAskOptions exampleGroupsState))).answer_closeness =
      some exampleGroupsState.answerCloseness ∧
    (askBody (jsTrim exampleGroupsState.question)
        (some (handleAskOptions exampleGroupsState))).use_hyde =
      some exampleGroupsState.useHyde ∧
    (askBody (jsTrim exampleGroupsState.question)
        (some (handleAskOptions exampleGroupsState))).use_keyword_rerank =
      some exampleGroupsState.useKeywordRerank :=
ask_tuning_defaults.2.2.2 exampleGroupsState (Except.error "x") _ (List.Mem.head _)

theorem handleAsk_blank_question_witness :
    handleAsk { initialAppState with question := "   " } (Except.error "x") =
      ({ initialAppState with question := "   " }, []) ∧
    questionInputSubmitDisabled false false "   " = true :=
⟨(handleAsk_blank_question { initialAppState with question := "   " }
    (Except.error "x") (by decide)).1,
 (handleAsk_blank_question { initialAppState with question := "   " }
    (Except.error "x") (by decide)).2 false false⟩

/-- Modelled from the spec: the backend Answer Synthesizer (spec section 4.6)
is not among the provided repository files (only the frontend is under src/),
so its contract is taken from the spec's words.  Inputs are the question, the
ranked sources and `answer_closeness`; the generation capability is `none`
when no provider is configured or reachable.  With no capability the
synthesizer deterministically returns the top-ranked source's text verbatim
with that source's confidence; with a capability it returns the generated
text, whose answer-confidence aggregation the spec leaves open (section 9),
so it stays an explicit parameter.  An empty candidate set yields the
deterministic no-match answer with confidence 0 (spec section 4.1). -/
def synthesizeAnswer (question : String) (sources : List SourceItem)
    (answerCloseness : ℚ)
    (generation : Option (String → List SourceItem → ℚ → String))
    (aggregateConfidence : List SourceItem → ℚ) : String × ℚ :=
match sources, generation with
| [], _ => ("no matching snippets", 0)
| top :: _, none => (top.text, top.snippet_confidence)
| top :: rest, some generate =>
    (generate question (top :: rest) answerCloseness,
     aggregateConfidence (top :: rest))

/-- C7: with a non-empty candidate set and no generation capability
configured, the synthesized answer is the top-ranked source's text verbatim
and the answer confidence is that source's `snippet_confidence`. -/
theorem synthesizeAnswer_deterministic_fallback (question : String)
    (top : SourceItem) (rest : List SourceItem) (answerCloseness : ℚ)
    (aggregateConfidence : List SourceItem → ℚ) :
    synthesizeAnswer question (top :: rest) answerCloseness none
        aggregateConfidence =
      (top.text, top.snippet_confidence) :=
rfl

/-- A metadata value as stored in a snippet's JSON metadata object: the
string and string-list values the edit form manages, or any other JSON value
(opaque here, tagged so distinct values stay distinct). -/
inductive MetaValue where
| str (s : String)
| strList (l : List String)
| other (tag : Nat)
deriving DecidableEq, Repr

/-- A JavaScript object used as snippet metadata: association list of keys
to values in insertion order. -/
abbrev Metadata := List (String × MetaValue)

/-- JavaScript property write `meta.k = v`: replace the value at the first
occurrence of the key, else append the key. -/
def setKey (k : String) (v : MetaValue) : Metadata → Metadata
| [] => [(k, v)]
| (k', v') :: rest =>
    if k' = k then (k, v) :: rest else (k', v') :: setKey k v rest

/-- JavaScript `delete meta.k`: drop the key. -/
def delKey (k : String) (m : Metadata) : Metadata :=
m.filter (fun p => p.1 ≠ k)

/-- JavaScript property read `meta[k]`. -/
def lookupKey (k : String) : Metadata → Option MetaValue
| [] => none
| (k', v) :: rest => if k' = k then some v else lookupKey k rest

/-- JavaScript `String.prototype.toLowerCase` on the character list (the
form's language codes are ASCII). -/
def jsToLowerCase (s : String) : String :=
String.mk (s.data.map Char.toLower)

/-- The `if (input) meta.k = v; else delete meta.k` pattern of
`buildMetadata`. -/
def setOrDelete (k : String) (v : Option MetaValue) (m : Metadata) : Metadata :=
match v with
| some v => setKey k v m
| none => delKey k m

/-- The EditSnippetModal form fields that `buildMetadata` reads: the
snippet's pre-existing metadata (spread into a fresh object) and the five
text inputs. -/
structure EditSnippetForm where
snippetMetadata : Metadata
language : String
heading : String
category : String
linkedSnippets : String
exampleQuestions : String
deriving DecidableEq, Repr

/-- EditSnippetModal.tsx: the linked-snippets input split on commas, each
token trimmed, empty tokens dropped. -/
def parseLinkedSnippets (s : String) : List String :=
((s.splitOn ",").map jsTrim).filter (fun t => t ≠ "")

/-- EditSnippetModal.tsx: the example-questions input split on newlines,
each line trimmed, empty lines dropped. -/
def parseExampleQuestions (s : String) : List String :=
((s.splitOn "\n").map jsTrim).filter (fun t => t ≠ "")

/-- EditSnippetModal.tsx `buildMetadata`, before the final null check: start
from a copy of the snippet's metadata, then update or remove the five
managed keys according to the form inputs. -/
def buildMetadataRaw (f : EditSnippetForm) : Metadata :=
setOrDelete "example_questions"
  (if parseExampleQuestions f.exampleQuestions ≠ [] then
    some (MetaValue.strList (parseExampleQuestions f.exampleQuestions)) else none)
  (setOrDelete "linked_snippets"
    (if parseLinkedSnippets f.linkedSnippets ≠ [] then
      some (MetaValue.strList (parseLinkedSnippets f.linkedSnippets)) else none)
    (setOrDelete "category"
      (if jsTrim f.category ≠ "" then some (MetaValue.str (jsTrim f.category)) else none)
      (setOrDelete "heading"
        (if jsTrim f.heading ≠ "" then some (MetaValue.str (jsTrim f.heading)) else none)
        (setOrDelete "language"
          (if jsTrim f.language ≠ "" then
            some (MetaValue.str (jsToLowerCase (jsTrim f.language))) else none)
          f.snippetMetadata))))

/-- EditSnippetModal.tsx `buildMetadata`: the normalized object, or null when
no keys remain (`Object.keys(meta).length > 0 ? meta : null`). -/
def buildMetadata (f : EditSnippetForm) : Option Metadata :=
if buildMetadataRaw f ≠ [] then some (buildMetadataRaw f) else none

theorem lookupKey_setKey_self (k : String) (v : MetaValue) (m : Metadata) :
    lookupKey k (setKey k v m) = some v := by
induction m with
| nil => simp [setKey, lookupKey]
| cons p rest ih =>
    obtain ⟨k', v'⟩ := p
    by_cases h : k' = k <;> simp [setKey, lookupKey, h, ih]

theorem lookupKey_setKey_other (k k' : String) (v : MetaValue) (m : Metadata)
    (h : k ≠ k') : lookupKey k (setKey k' v m) = lookupKey k m := by
induction m with
| nil => simp [setKey, lookupKey, Ne.symm h]
| cons p rest ih =>
    obtain ⟨k'', v''⟩ := p
    by_cases h2 : k'' = k'
    · subst h2
      simp [setKey, lookupKey, Ne.symm h]
    · by_cases h3 : k'' = k <;> simp [setKey, lookupKey, h, h2, h3, ih]

theorem lookupKey_delKey_self (k : String) (m : Metadata) :
    lookupKey k (delKey k m) = none := by
induction m with
| nil => rfl
| cons p rest ih =>
    obtain ⟨k', v'⟩ := p
    simp only [delKey, List.filter_cons] at ih ⊢
    by_cases h : k' = k
    · simpa [h] using ih
    · simpa [h, lookupKey] using ih

theorem lookupKey_delKey_other (k k' : String) (m : Metadata) (h : k ≠ k') :
    lookupKey k (delKey k' m) = lookupKey k m := by
induction m with
| nil => rfl
| cons p rest ih =>
    obtain ⟨k'', v''⟩ := p
    simp only [delKey, List.filter_cons, decide_not] at ih ⊢
    by_cases h2 : k'' = k'
    · simpa [h2, Ne.symm h, lookupKey] using ih
    · by_cases h3 : k'' = k <;> simp [lookupKey, h, h2, h3, ih]

theorem lookupKey_setOrDelete_self (k : String) (v : Option MetaValue)
    (m : Metadata) : lookupKey k (setOrDelete k v m) = v := by
cases v <;>
  simp [setOrDelete, lookupKey_setKey_self, lookupKey_delKey_self]

theorem lookupKey_setOrDelete_other (k k' : String) (v : Option MetaValue)
    (m : Metadata) (h : k ≠ k') :
    lookupKey k (setOrDelete k' v m) = lookupKey k m := by
cases v <;>
  simp [setOrDelete, lookupKey_setKey_other _ _ _ _ h,
    lookupKey_delKey_other _ _ _ h]

/-- C10: `buildMetadata` stores the language trimmed and lowercased, trims
heading and category, stores the managed keys exactly when their inputs are
non-blank (removing them otherwise), parses linked snippets as non-empty
comma-separated trimmed tokens and example questions as non-empty trimmed
lines, leaves every other pre-existing metadata key unchanged, and returns
null exactly when no keys remain. -/
theorem buildMetadata_normalizes (f : EditSnippetForm) :
    lookupKey "language" (buildMetadataRaw f) =
      (if jsTrim f.language ≠ "" then
        some (MetaValue.str (jsToLowerCase (jsTrim f.language))) else none) ∧
    lookupKey "heading" (buildMetadataRaw f) =
      (if jsTrim f.heading ≠ "" then
        some (MetaValue.str (jsTrim f.heading)) else none) ∧
    lookupKey "category" (buildMetadataRaw f) =
      (if jsTrim f.category ≠ "" then
        some (MetaValue.str (jsTrim f.category)) else none) ∧
    lookupKey "linked_snippets" (buildMetadataRaw f) =
      (if parseLinkedSnippets f.linkedSnippets ≠ [] then
        some (MetaValue.strList (parseLinkedSnippets f.linkedSnippets)) else none) ∧
    lookupKey "example_questions" (buildMetadataRaw f) =
      (if parseExampleQuestions f.exampleQuestions ≠ [] then
        some (MetaValue.strList (parseExampleQuestions f.exampleQuestions)) else none) ∧
    (∀ k : String,
      k ∉ (["language", "heading", "category", "linked_snippets",
            "example_questions"] : List String) →
      lookupKey k (buildMetadataRaw f) = lookupKey k f.snippetMetadata) ∧
    (buildMetadata f = none ↔ buildMetadataRaw f = []) := by
refine ⟨?_, ?_, ?_, ?_, ?_, ?_, ?_⟩
· rw [buildMetadataRaw,
    lookupKey_setOrDelete_other _ _ _ _ (by decide),
    lookupKey_setOrDelete_other _ _ _ _ (by decide),
    lookupKey_setOrDelete_other _ _ _ _ (by decide),
    lookupKey_setOrDelete_other _ _ _ _ (by decide),
    lookupKey_setOrDelete_self]
· rw [buildMetadataRaw,
    lookupKey_setOrDelete_other _ _ _ _ (by decide),
    lookupKey_setOrDelete_other _ _ _ _ (by decide),
    lookupKey_setOrDelete_other _ _ _ _ (by decide),
    lookupKey_setOrDelete_self]
· rw [buildMetadataRaw,
    lookupKey_setOrDelete_other _ _ _ _ (by decide),
    lookupKey_setOrDelete_other _ _ _ _ (by decide),
    lookupKey_setOrDelete_self]
· rw [buildMetadataRaw,
    lookupKey_setOrDelete_other _ _ _ _ (by decide),
    lookupKey_setOrDelete_self]
· rw [buildMetadataRaw, lookupKey_setOrDelete_self]
· intro k hk
  simp only [List.mem_cons, List.not_mem_nil, or_false, not_or] at hk
  obtain ⟨h1, h2, h3, h4, h5⟩ := hk
  rw [buildMetadataRaw,
    lookupKey_setOrDelete_other _ _ _ _ h5,
    lookupKey_setOrDelete_other _ _ _ _ h4,
    lookupKey_setOrDelete_other _ _ _ _ h3,
    lookupKey_setOrDelete_other _ _ _ _ h2,
    lookupKey_setOrDelete_other _ _ _ _ h1]
· rw [buildMetadata]
  split_ifs with h
  · simp [h]
  · simp [not_not.mp h]

theorem buildMetadata_normalizes_witness :
    lookupKey "language"
        (buildMetadataRaw
          { snippetMetadata := [("source_document_url", MetaValue.other 0)],
            language := " DE ", heading := "", category := "",
            linkedSnippets := "a, ,b", exampleQuestions := "" }) =
      some (MetaValue.str "de") ∧
    lookupKey "source_document_url"
        (buildMetadataRaw
          { snippetMetadata := [("source_document_url", MetaValue.other 0)],
            language := " DE ", heading := "", category := "",
            linkedSnippets := "a, ,b", exampleQuestions := "" }) =
      some (MetaValue.other 0) :=
⟨((buildMetadata_normalizes
    { snippetMetadata := [("source_document_url", MetaValue.other 0)],
      language := " DE ", heading := "", category := "",
      linkedSnippets := "a, ,b", exampleQuestions := "" }).1).trans (by decide),
 (((buildMetadata_normalizes
    { snippetMetadata := [("source_document_url", MetaValue.other 0)],
      language := " DE ", heading := "", category := "",
      linkedSnippets := "a, ,b", exampleQuestions := "" }).2.2.2.2.2.1
    "source_document_url" (by decide)).trans (by decide))⟩

end SnippetApp
